import Mathlib

/-!
Verification of the geometric primitives and grid-assembly routines of the
INGRID repository (src/geometry.py and src/Topologies/SF45.py), shallowly
embedded in Lean 4.  Coordinates are rationals (the Python floats are exact
on every input considered here); Euclidean lengths live in the reals.
-/

namespace Ingrid

/-- Model of geometry.Point: a point (x, y) in the poloidal plane. -/
structure GPoint where
  x : ℚ
  y : ℚ
deriving DecidableEq

/-- Model of geometry.Line: an ordered list of points.  The Python class
stores the list as attribute p and derives xval, yval and length in
its constructor; here the derived attributes are functions of p. -/
structure GLine where
  p : List GPoint
deriving DecidableEq

/-- Attribute xval: the list of x coordinates of the points of the line. -/
def GLine.xval (L : GLine) : List ℚ := L.p.map GPoint.x

/-- Attribute yval: the list of y coordinates of the points of the line. -/
def GLine.yval (L : GLine) : List ℚ := L.p.map GPoint.y

/-- Model of Line.reverse_copy: returns Line(self.p reversed), a new line;
the receiver is not modified (the embedding is purely functional, mirroring
that the Python method does not write to self). -/
def GLine.reverse_copy (L : GLine) : GLine := ⟨L.p.reverse⟩

/-- Result of a call to geometry.segment_intersect.  The Python function
either returns the tuple (True, sol), or raises numpy.linalg.LinAlgError
inside np.linalg.solve when the assembled matrix is singular, or reaches
its final line, whose expression False, (None, None) is not returned
(there is no return keyword on that line), so the call yields the implicit
value None. -/
inductive SegResult where
  | found (s t : ℚ)
  | linAlgError
  | pyNone
deriving DecidableEq

/-- Model of geometry.segment_intersect(line1, line2), following the source
line by line:
the first destructuring assigns (xa, ya) from line1 point 0 and (xb, yb)
from line2 point 0; the second assigns (xc, yc) from line1 point 1 and
(xd, yd) from line2 point 1.  Then M = [[xb - xa, -xd + xc],
[yb - ya, -yd + yc]] and r = [xc - xa, yc - ya], and sol solves M sol = r
(np.linalg.solve raises LinAlgError when M is singular; on the nonsingular
exact inputs considered in the claims LAPACK computes the exact rational
solution, given here by Cramer's rule).  When both components of sol lie in
the interval [0, 1] the function returns (True, sol); otherwise it falls
off the end of the function body. -/
def segment_intersect (line1 line2 : GLine) : SegResult :=
  let xa := line1.xval.getD 0 0
  let ya := line1.yval.getD 0 0
  let xb := line2.xval.getD 0 0
  let yb := line2.yval.getD 0 0
  let xc := line1.xval.getD 1 0
  let yc := line1.yval.getD 1 0
  let xd := line2.xval.getD 1 0
  let yd := line2.yval.getD 1 0
  let m00 := xb - xa
  let m01 := -xd + xc
  let m10 := yb - ya
  let m11 := -yd + yc
  let det := m00 * m11 - m01 * m10
  if det = 0 then SegResult.linAlgError
  else
    let s := ((xc - xa) * m11 - m01 * (yc - ya)) / det
    let t := (m00 * (yc - ya) - (xc - xa) * m10) / det
    if s ≤ 1 ∧ t ≤ 1 ∧ 0 ≤ s ∧ 0 ≤ t then SegResult.found s t
    else SegResult.pyNone

/-- One term of Line.calc_length: np.sqrt of the squared coordinate
differences of two consecutive points. -/
noncomputable def segLen (a b : GPoint) : ℝ :=
  Real.sqrt (((b.x : ℝ) - (a.x : ℝ)) ^ 2 + ((b.y : ℝ) - (a.y : ℝ)) ^ 2)

/-- Model of the loop of Line.calc_length: the sum of segLen over
consecutive pairs of points. -/
noncomputable def pathLen : List GPoint → ℝ
  | a :: b :: rest => segLen a b + pathLen (b :: rest)
  | _ => 0

/-- Attribute length of geometry.Line, computed by Line.calc_length. -/
noncomputable def GLine.calc_length (L : GLine) : ℝ := pathLen L.p

/-- Model of np.linspace(a, b, num, endpoint=False): num evenly spaced
samples starting at a with step (b - a)/num, the stop value excluded. -/
def linspaceNoEnd (a b : ℚ) (num : ℕ) : List ℚ :=
  (List.range num).map fun k : ℕ => a + (k : ℚ) * ((b - a) / (num : ℚ))

/-- Model of the loop of Line.fluff on one coordinate array: for each
consecutive pair of values append linspace(v i, v (i+1), num,
endpoint=False), and finally append the last value.  (On an empty array the
Python code would raise IndexError reading the final value; the claims only
concern lines with at least two points.) -/
def fluffVals (num : ℕ) : List ℚ → List ℚ
  | a :: b :: rest => linspaceNoEnd a b num ++ fluffVals num (b :: rest)
  | [a] => [a]
  | [] => []

/-- Model of Line.fluff(num): returns the pair (x_fluff, y_fluff),
obtained by applying the resampling loop to xval and to yval. -/
def GLine.fluff (L : GLine) (num : ℕ) : List ℚ × List ℚ :=
  (fluffVals num L.xval, fluffVals num L.yval)

/-- Concrete two-point line used as witness input for the fluff claim. -/
def wLine8 : GLine := ⟨[⟨0, 0⟩, ⟨1, 2⟩]⟩

/-- Python exceptions surfaced by the SF45 routines. -/
inductive PyErr where
  | indexError
  | attributeError
  | nameError (n : String)
  | valueError (msg : String)
deriving DecidableEq

/-- A cell of a filled patch as consumed by concat_grid: its five stored
vertex positions, each an (R, Z) pair. -/
structure SFCell where
  center : ℚ × ℚ
  sw : ℚ × ℚ
  se : ℚ × ℚ
  nw : ℚ × ℚ
  ne : ℚ × ℚ
deriving DecidableEq, Inhabited

/-- The vertices[coor] lookup of a cell, for the coordinate tags iterated
by the write loop: CENTER, SW, SE, NW, NE. -/
def SFCell.vertex (c : SFCell) (coor : String) : ℚ × ℚ :=
  if coor = "CENTER" then c.center
  else if coor = "SW" then c.sw
  else if coor = "SE" then c.se
  else if coor = "NW" then c.nw
  else c.ne

/-- A patch as consumed by concat_grid: its filled cell grid, rows indexed
radially (jyl) and columns poloidally (ixl). -/
structure SFPatch where
  cell_grid : List (List SFCell)
deriving DecidableEq, Inhabited

/-- patch.npol = len(patch.cell_grid[0]) + 1 (concat_grid line 110): the
per-patch poloidal count, one more than the patch's poloidal cell count. -/
def SFPatch.npol (p : SFPatch) : ℕ := (p.cell_grid.headD []).length + 1

/-- patch.nrad = len(patch.cell_grid) + 1 (concat_grid line 111): the
per-patch radial count, one more than the patch's radial cell count. -/
def SFPatch.nrad (p : SFPatch) : ℕ := p.cell_grid.length + 1

/-- Lines 109-111 of concat_grid: the loop assigning patch.npol and
patch.nrad over self.patches.values(); reading cell_grid[0] of an empty
cell grid raises IndexError. -/
def attrPass : List SFPatch → Except PyErr Unit
  | [] => Except.ok ()
  | p :: rest =>
    if p.cell_grid = [] then Except.error PyErr.indexError else attrPass rest

/-- The patch matrix self.patch_matrix, indexed [row][column]; the [None]
guard entries are modeled as none. -/
abbrev PatchMatrix := List (List (Option SFPatch))

/-- int(np.sum([patch.npol - 1 for patch in s])) over a slice s of row 1 of
the patch matrix; reading .npol of a [None] entry raises AttributeError. -/
def sumNpol : List (Option SFPatch) → Except PyErr ℕ
  | [] => Except.ok 0
  | none :: _ => Except.error PyErr.attributeError
  | some p :: rest => do
    let s ← sumNpol rest
    Except.ok (p.npol - 1 + s)

/-- int(np.sum([patch[j].nrad - 1 for patch in rows])): for each row of a
row slice of the patch matrix, index column j (IndexError when the row is
too short) and read .nrad (AttributeError on a [None] entry). -/
def sumNradCol (j : ℕ) : List (List (Option SFPatch)) → Except PyErr ℕ
  | [] => Except.ok 0
  | r :: rest =>
    match r[j]? with
    | none => Except.error PyErr.indexError
    | some none => Except.error PyErr.attributeError
    | some (some p) => do
      let s ← sumNradCol j rest
      Except.ok (p.nrad - 1 + s)

/-- Line 114: np_total1 = int(np.sum([patch.npol - 1 for patch in
patch_matrix[1][1:5]])) + 2. -/
def np_total1 (pm : PatchMatrix) : Except PyErr ℕ := do
  let s ← sumNpol (((pm.getD 1 []).drop 1).take 4)
  Except.ok (s + 2)

/-- Line 117: nr_total1 = int(np.sum([patch[1].nrad - 1 for patch in
patch_matrix[1:4]])) + 2. -/
def nr_total1 (pm : PatchMatrix) : Except PyErr ℕ := do
  let s ← sumNradCol 1 ((pm.drop 1).take 3)
  Except.ok (s + 2)

/-- Line 120: np_total2 = int(np.sum([patch.npol - 1 for patch in
patch_matrix[1][7:11]])) + 2. -/
def np_total2 (pm : PatchMatrix) : Except PyErr ℕ := do
  let s ← sumNpol (((pm.getD 1 []).drop 7).take 4)
  Except.ok (s + 2)

/-- Line 123: nr_total2 = int(np.sum([patch[7].nrad - 1 for patch in
patch_matrix[1:4]])) + 2. -/
def nr_total2 (pm : PatchMatrix) : Except PyErr ℕ := do
  let s ← sumNradCol 7 ((pm.drop 1).take 3)
  Except.ok (s + 2)

/-- np.zeros((a, b, 5)): an a × b × 5 array of zeros. -/
def zeros3 (a b : ℕ) : List (List (List ℚ)) :=
  List.replicate a (List.replicate b (List.replicate 5 (0 : ℚ)))

/-- The pair of coordinate arrays (rm, zm) being populated by one region
scan, and finally the concatenated global pair. -/
structure GridArrays where
  rm : List (List (List ℚ))
  zm : List (List (List ℚ))
deriving DecidableEq

/-- Write g[i][j][k] = v.  (The indices are in range in the executions the
claims concern; an out-of-range write is modeled as a no-op, where Python
would raise or wrap around for negative indices — no claim observes a
written entry.) -/
def set3 (g : List (List (List ℚ))) (i j k : ℕ) (v : ℚ) : List (List (List ℚ)) :=
  g.set i ((g.getD i []).set j (((g.getD i []).getD j []).set k v))

/-- The coordinate tags iterated at lines 158-162, paired with the running
index ind. -/
def coorList : List (ℕ × String) :=
  [(0, "CENTER"), (1, "SW"), (2, "SE"), (3, "NW"), (4, "NE")]

/-- Body of the innermost loop over coor (lines 158-162): write the rm and
zm entries for this tag, increment ind, then execute if Verbose: print(...).
The name Verbose is unbound inside concat_grid — it is neither a local
variable, a parameter, nor a module-level global of SF45.py (only the
instance attribute self.Verbose and locals of other methods exist) — so
evaluating the condition raises NameError whenever this statement runs.
The updated arrays are locals of concat_grid and are discarded when the
exception propagates. -/
def coorWrite (cell : SFCell) (ixcell jycell : ℕ) (st : GridArrays) :
    ℕ × String → Except PyErr GridArrays
  | (ind, coor) =>
    let v := cell.vertex coor
    let _st : GridArrays :=
      ⟨set3 st.rm ixcell jycell ind v.1, set3 st.zm ixcell jycell ind v.2⟩
    Except.error (PyErr.nameError "Verbose")

/-- Body of the per-cell loop (lines 152-162) for the patch at column ixp:
compute ixcell from the npol sum over patch_matrix[1][colStart:ixp+1] and
jycell from the running radial sum, then run the coor write loop. -/
def cellBody (pm : PatchMatrix) (colStart ixp : ℕ) (patch : SFPatch)
    (nr_sum : ℕ) (st : GridArrays) (ixl jyl : ℕ) : Except PyErr GridArrays := do
  let s ← sumNpol (((pm.getD 1 []).drop colStart).take (ixp + 1 - colStart))
  let ixcell := s - (patch.cell_grid.headD []).length + ixl + 1
  let jycell := nr_sum - (patch.nrad - 1) + jyl + 1
  let cell := (patch.cell_grid.getD jyl []).getD ixl default
  coorList.foldlM (coorWrite cell ixcell jycell) st

/-- Lines 148-150: for ixl in range(len(cell_grid[0])): for jyl in
range(len(cell_grid)): the per-cell body. -/
def cellLoop (pm : PatchMatrix) (colStart ixp : ℕ) (patch : SFPatch)
    (nr_sum : ℕ) (st : GridArrays) : Except PyErr GridArrays :=
  (List.range (patch.cell_grid.headD []).length).foldlM
    (fun st1 ixl =>
      (List.range patch.cell_grid.length).foldlM
        (fun st2 jyl => cellBody pm colStart ixp patch nr_sum st2 ixl jyl) st1)
    st

/-- Body of the jyp loop (lines 138-162): read the patch at
patch_matrix[jyp][ixp], skip the [None] guard entries, accumulate nr_sum
by nrad - 1, and run the cell loop.  (The claims concern matrices large
enough for the indexing to be in range; a missing entry is treated as the
[None] guard.) -/
def rowStep (pm : PatchMatrix) (colStart ixp : ℕ) (acc : GridArrays × ℕ)
    (jyp : ℕ) : Except PyErr (GridArrays × ℕ) :=
  match (pm.getD jyp []).getD ixp none with
  | none => Except.ok acc
  | some patch => do
    let nr_sum := acc.2 + (patch.nrad - 1)
    let st ← cellLoop pm colStart ixp patch nr_sum acc.1
    Except.ok (st, nr_sum)

/-- The jyp loop at a fixed column: nr_sum = 0, then fold rowStep over the
rows 1, 2, 3. -/
def rowLoop (pm : PatchMatrix) (colStart ixp : ℕ) (st : GridArrays) :
    Except PyErr (GridArrays × ℕ) :=
  [1, 2, 3].foldlM (rowStep pm colStart ixp) (st, 0)

/-- One column of a region scan: run the jyp loop and keep the updated
arrays. -/
def colStep (pm : PatchMatrix) (colStart : ℕ) (st : GridArrays) (ixp : ℕ) :
    Except PyErr GridArrays := do
  let r ← rowLoop pm colStart ixp st
  Except.ok r.1

/-- One region scan of concat_grid (lines 134-162 on rm1/zm1 with columns
1-4, lines 169-197 on rm2/zm2 with columns 7-10): fold colStep over the
region's columns. -/
def regionScan (pm : PatchMatrix) (colStart : ℕ) (cols : List ℕ)
    (st : GridArrays) : Except PyErr GridArrays :=
  cols.foldlM (colStep pm colStart) st

/-- Modelled from the spec: self.add_guardc is called by concat_grid
(lines 215-218) but its definition is absent from src.  Spec section 4.4
step 4: append guard-cell rings at each poloidal extremity, derived from
the adjacent interior ring; modeled as prepending a copy of the first
poloidal ring and appending a copy of the last.  No claim observes its
value: C9 shows concat_grid raises before reaching it. -/
def add_guardc (g : List (List (List ℚ))) (_ixlb _ixrb : ℕ) :
    List (List (List ℚ)) :=
  g.take 1 ++ g ++ g.drop (g.length - 1)

/-- Model of SF45.concat_grid (lines 98-229): assign per-patch npol/nrad
attributes, compute the regional index totals, allocate rm1/zm1/rm2/zm2 as
zero arrays, run the two region scans, flip the radial index order of
every poloidal row (rm[i] = rm[i][::-1]), add guard cells, and concatenate
the two regions.  patches stands for self.patches.values() and pm for
self.patch_matrix. -/
def concat_grid (patches : List SFPatch) (pm : PatchMatrix) :
    Except PyErr GridArrays := do
  attrPass patches
  let a1 ← np_total1 pm
  let b1 ← nr_total1 pm
  let a2 ← np_total2 pm
  let b2 ← nr_total2 pm
  let st1 ← regionScan pm 1 [1, 2, 3, 4] ⟨zeros3 a1 b1, zeros3 a1 b1⟩
  let st2 ← regionScan pm 7 [7, 8, 9, 10] ⟨zeros3 a2 b2, zeros3 a2 b2⟩
  let rm1 := st1.rm.map List.reverse
  let zm1 := st1.zm.map List.reverse
  let rm2 := st2.rm.map List.reverse
  let zm2 := st2.zm.map List.reverse
  let rm1g := add_guardc rm1 0 (rm1.length - 2)
  let zm1g := add_guardc zm1 0 (zm1.length - 2)
  let rm2g := add_guardc rm2 0 (rm2.length - 2)
  let zm2g := add_guardc zm2 0 (zm2.length - 2)
  Except.ok ⟨rm1g ++ rm2g, zm1g ++ zm2g⟩

/-- The grid-generation settings read by GetNpoints.  Each np_* / nr_*
key under grid_params.grid_generation is optional: the try/except pairs
fall back to np_global / nr_global when the key is missing.  The two
plate np_local values are those read for plate patches. -/
structure GridSettings where
  np_global : ℤ
  nr_global : ℤ
  np_sol : Option ℤ
  np_core : Option ℤ
  np_pf : Option ℤ
  nr_sol : Option ℤ
  nr_core : Option ℤ
  nr_pf : Option ℤ
  plate_W1_np_local : ℤ
  plate_E1_np_local : ℤ
deriving DecidableEq

/-- The two attributes of a patch consulted by GetNpoints. -/
structure PlateInfo where
  platePatch : Bool
  plateLocation : String
deriving DecidableEq

/-- Model of SF45.GetNpoints (lines 750-800).  Resolve np_sol/np_core
(np_pf is also resolved but never used); on a poloidal mismatch raise
ValueError when Enforce, else print a warning and clamp both to
np.amin of the pair.  Resolve nr_sol/nr_core/nr_pf; on a radial
pf/core mismatch raise ValueError when Enforce, else warn and clamp.
For a plate patch, additionally bind the local np_cells from the plate
settings.  The final statement is return (nr_cells, np_cells):
nr_cells is assigned nowhere in the function body and is not a module
global of SF45.py, so evaluating the return expression always raises
NameError (printed warnings are side effects and are not modeled). -/
def GetNpoints (s : GridSettings) (patch : PlateInfo) (Enforce : Bool) :
    Except PyErr (ℤ × ℤ) := do
  let np_sol := s.np_sol.getD s.np_global
  let np_core := s.np_core.getD s.np_global
  let _np_pf := s.np_pf.getD s.np_global
  let (_np_sol, _np_core) ←
    if np_sol ≠ np_core then
      if Enforce then
        Except.error (PyErr.valueError "SOL and CORE must have equal POLOIDAL np values")
      else
        Except.ok (min np_sol np_core, min np_sol np_core)
    else Except.ok (np_sol, np_core)
  let nr_sol := s.nr_sol.getD s.nr_global
  let nr_core := s.nr_core.getD s.nr_global
  let nr_pf := s.nr_pf.getD s.nr_global
  let _nr_sol := nr_sol
  let (_nr_pf, _nr_core) ←
    if nr_pf ≠ nr_core then
      if Enforce then
        Except.error (PyErr.valueError "PF and CORE must have equal RADIAL nr values")
      else
        Except.ok (min nr_pf nr_core, min nr_pf nr_core)
    else Except.ok (nr_pf, nr_core)
  let _np_cells : Option ℤ :=
    if patch.platePatch then
      if patch.plateLocation = "W" then some s.plate_W1_np_local
      else if patch.plateLocation = "E" then some s.plate_E1_np_local
      else none
    else none
  Except.error (PyErr.nameError "nr_cells")

/-- The corner-snapping view of a patch: its tag and its four corner
vertices.  Patch.get_tag and Patch.adjust_corner are absent from src (only
their caller SF45.AdjustPatch is present), so the patch is modeled at the
granularity the spec describes: a tag and four corner vertices. -/
structure CornerPatch where
  tag : String
  cornerNW : ℚ × ℚ
  cornerNE : ℚ × ℚ
  cornerSW : ℚ × ℚ
  cornerSE : ℚ × ℚ
deriving DecidableEq

/-- Modelled from the spec: Patch.adjust_corner(point, corner) is missing
from src; spec section 4.2 step 7 says corner snapping must overwrite that
corner's vertex with the exact X-point coordinate.  Only the designated
corner field is replaced. -/
def adjust_corner (p : CornerPatch) (pt : ℚ × ℚ) (corner : String) : CornerPatch :=
  if corner = "NW" then { p with cornerNW := pt }
  else if corner = "NE" then { p with cornerNE := pt }
  else if corner = "SW" then { p with cornerSW := pt }
  else if corner = "SE" then { p with cornerSE := pt }
  else p

/-- Model of SF45.AdjustPatch (lines 802-833): dispatch on the patch tag
and snap the corner(s) listed for that tag to xpt1 or xpt2; tags not in
the table leave the patch untouched. -/
def AdjustPatch (xpt1 xpt2 : ℚ × ℚ) (patch : CornerPatch) : CornerPatch :=
  let tag := patch.tag
  if tag = "A2" then adjust_corner patch xpt1 "SE"
  else if tag = "A1" then adjust_corner patch xpt1 "NE"
  else if tag = "B2" then adjust_corner patch xpt1 "SW"
  else if tag = "B1" then adjust_corner patch xpt1 "NW"
  else if tag = "E2" then adjust_corner patch xpt1 "SE"
  else if tag = "E1" then adjust_corner patch xpt1 "NE"
  else if tag = "F3" then adjust_corner patch xpt2 "SE"
  else if tag = "F2" then adjust_corner (adjust_corner patch xpt1 "SW") xpt2 "NE"
  else if tag = "F1" then adjust_corner patch xpt1 "NW"
  else if tag = "G3" then adjust_corner patch xpt2 "SW"
  else if tag = "G2" then adjust_corner patch xpt2 "NW"
  else if tag = "H3" then adjust_corner patch xpt2 "SE"
  else if tag = "H2" then adjust_corner patch xpt2 "NE"
  else patch

/-- The four boundary vertex lists of a patch consulted by
GetBoundaryPoints. -/
structure VertexPatch where
  N_vertices : List (ℚ × ℚ)
  S_vertices : List (ℚ × ℚ)
  E_vertices : List (ℚ × ℚ)
  W_vertices : List (ℚ × ℚ)
deriving DecidableEq

/-- Model of SF45.GetBoundaryPoints (lines 734-748): given
AdjacentPatch = (PatchName, Boundary), walk self.patches.items(); at the
first name match return S_vertices for S, N_vertices for N,
patch.W_vertices for E, and W_vertices for W; any other boundary tag falls
through and the walk continues; return None when nothing matched or when
AdjacentPatch is None. -/
def GetBoundaryPoints : List (String × VertexPatch) → Option (String × String) →
    Option (List (ℚ × ℚ))
  | _, none => none
  | [], some _ => none
  | (name, patch) :: rest, some (pn, b) =>
    if name = pn then
      if b = "S" then some patch.S_vertices
      else if b = "N" then some patch.N_vertices
      else if b = "E" then some patch.W_vertices
      else if b = "W" then some patch.W_vertices
      else GetBoundaryPoints rest (some (pn, b))
    else GetBoundaryPoints rest (some (pn, b))

/-- Settings with mismatched poloidal counts (np_sol = 2, np_core = 4) and
matching radial counts: the failing input for the GetNpoints claim. -/
def wSettings4 : GridSettings :=
  { np_global := 4, nr_global := 4, np_sol := some 2, np_core := some 4,
    np_pf := none, nr_sol := none, nr_core := none, nr_pf := none,
    plate_W1_np_local := 3, plate_E1_np_local := 3 }

/-- A non-plate patch, as seen by GetNpoints. -/
def wPlain4 : PlateInfo := { platePatch := false, plateLocation := "" }

/-- The concrete patch used as the corner-snapping witness: tag F2, whose
dispatch entry snaps two corners. -/
def wPatchF2 : CornerPatch :=
  { tag := "F2", cornerNW := (0, 0), cornerNE := (1, 1),
    cornerSW := (2, 2), cornerSE := (3, 3) }

/-- Whether the patch-matrix entry at row jyp, column ixp holds a patch
with at least one cell: a nonempty first cell row is exactly the condition
under which the per-cell write loop of concat_grid executes an iteration
for that patch. -/
def entryHasCell (pm : PatchMatrix) (ixp jyp : ℕ) : Bool :=
  match (pm.getD jyp []).getD ixp none with
  | none => false
  | some patch => decide ((patch.cell_grid.headD []).length ≠ 0)

/-- Whether any scanned row of column ixp holds a patch with a cell. -/
def colHasCell (pm : PatchMatrix) (ixp : ℕ) : Bool :=
  [1, 2, 3].any fun jyp => entryHasCell pm ixp jyp

/-- A concrete cell (all five vertices at the origin), used to build the
witness patch matrix. -/
def wCell : SFCell := default

/-- A concrete patch with a 2 × 2 cell grid, so npol = 3 and nrad = 3. -/
def wPatch32 : SFPatch := ⟨[[wCell, wCell], [wCell, wCell]]⟩

/-- Row 1 of the witness patch matrix: columns 1-4 and 7-10 hold patches,
all other columns hold the [None] guard. -/
def wRow1 : List (Option SFPatch) :=
  [none, some wPatch32, some wPatch32, some wPatch32, some wPatch32, none,
    none, some wPatch32, some wPatch32, some wPatch32, some wPatch32]

/-- The witness patch matrix: guard rows 0 and 4, and patch rows 1-3. -/
def wPM : PatchMatrix :=
  [List.replicate 11 none, wRow1, wRow1, wRow1, List.replicate 11 none]

/-- The four patches of one region row of the witness matrix. -/
def wPs4 : List SFPatch := [wPatch32, wPatch32, wPatch32, wPatch32]

/-- The three patches of one region column of the witness matrix. -/
def wQs3 : List SFPatch := [wPatch32, wPatch32, wPatch32]

theorem segLen_comm (a b : GPoint) : segLen a b = segLen b a := by
  unfold segLen
  congr 1
  ring

theorem pathLen_nil : pathLen [] = 0 := rfl

theorem pathLen_single (a : GPoint) : pathLen [a] = 0 := rfl

theorem pathLen_append_pair (x a : GPoint) :
    ∀ l : List GPoint, pathLen (l ++ [x, a]) = pathLen (l ++ [x]) + segLen x a
  | [] => by simp [pathLen]
  | [c] => by simp [pathLen]
  | c :: d :: l => by
    have ih := pathLen_append_pair x a (d :: l)
    simp only [List.cons_append, List.append_eq, pathLen] at ih ⊢
    rw [ih]
    ring

theorem pathLen_reverse : ∀ l : List GPoint, pathLen l.reverse = pathLen l
  | [] => rfl
  | [_] => rfl
  | a :: b :: l => by
    have ih := pathLen_reverse (b :: l)
    have h1 : (a :: b :: l).reverse = l.reverse ++ [b, a] := by simp
    have h2 : (b :: l).reverse = l.reverse ++ [b] := by simp
    rw [h1, pathLen_append_pair, ← h2, ih, segLen_comm]
    simp only [pathLen]
    ring

theorem linspaceNoEnd_length (a b : ℚ) (num : ℕ) :
    (linspaceNoEnd a b num).length = num := by
  simp [linspaceNoEnd]

theorem linspaceNoEnd_getD (a b : ℚ) (num k : ℕ) (hk : k < num) :
    (linspaceNoEnd a b num).getD k 0 = a + (k : ℚ) * ((b - a) / (num : ℚ)) := by
  rw [linspaceNoEnd, List.getD_eq_getElem?_getD, List.getElem?_map,
    List.getElem?_range hk]
  rfl

theorem fluffVals_ne_nil (num : ℕ) : ∀ v : List ℚ, v ≠ [] → fluffVals num v ≠ []
  | [], h => absurd rfl h
  | [_], _ => by simp [fluffVals]
  | _ :: b :: rest, _ => by
    have ih := fluffVals_ne_nil num (b :: rest) (by simp)
    simp [fluffVals, ih]

theorem fluffVals_length (num : ℕ) :
    ∀ v : List ℚ, v ≠ [] → (fluffVals num v).length = num * (v.length - 1) + 1
  | [], h => absurd rfl h
  | [_], _ => by simp [fluffVals]
  | _ :: b :: rest, _ => by
    have ih := fluffVals_length num (b :: rest) (by simp)
    simp [fluffVals, ih, linspaceNoEnd_length]
    ring

theorem fluffVals_head (num : ℕ) (hnum : 1 ≤ num) :
    ∀ v : List ℚ, (fluffVals num v).head? = v.head?
  | [] => rfl
  | [_] => rfl
  | a :: b :: rest => by
    have h0 : (linspaceNoEnd a b num).head? = some a := by
      rw [List.head?_eq_getElem?, linspaceNoEnd, List.getElem?_map,
        List.getElem?_range hnum]
      norm_num
    simp [fluffVals, h0]

theorem fluffVals_getLast (num : ℕ) :
    ∀ v : List ℚ, v ≠ [] → (fluffVals num v).getLast? = v.getLast?
  | [], h => absurd rfl h
  | [_], _ => rfl
  | a :: b :: rest, _ => by
    have ih := fluffVals_getLast num (b :: rest) (by simp)
    have hne := fluffVals_ne_nil num (b :: rest) (by simp)
    obtain ⟨y, hy⟩ : ∃ y, (fluffVals num (b :: rest)).getLast? = some y := by
      cases h : (fluffVals num (b :: rest)).getLast? with
      | none => exact absurd (List.getLast?_eq_none_iff.mp h) hne
      | some y => exact ⟨y, rfl⟩
    simp only [fluffVals, List.getLast?_append, hy, Option.or_some,
      List.getLast?_cons_cons]
    rw [← ih, hy]

theorem fluffVals_getD (num : ℕ) :
    ∀ (v : List ℚ) (i k : ℕ), i + 1 < v.length → k < num →
      (fluffVals num v).getD (i * num + k) 0 =
        v.getD i 0 + (k : ℚ) * ((v.getD (i + 1) 0 - v.getD i 0) / (num : ℚ))
  | [], _, _, hi, _ => by simp at hi
  | [_], _, _, hi, _ => by simp at hi
  | a :: b :: rest, 0, k, _, hk => by
    have hlt : k < (linspaceNoEnd a b num).length := by
      rw [linspaceNoEnd_length]; exact hk
    simp only [fluffVals, Nat.zero_mul, Nat.zero_add]
    rw [List.getD_eq_getElem?_getD, List.getElem?_append_left hlt,
      ← List.getD_eq_getElem?_getD, linspaceNoEnd_getD a b num k hk]
    rfl
  | a :: b :: rest, i + 1, k, hi, hk => by
    have hi' : i + 1 < (b :: rest).length := by
      simp only [List.length_cons] at hi ⊢
      omega
    have ih := fluffVals_getD num (b :: rest) i k hi' hk
    have hidx : (i + 1) * num + k = (linspaceNoEnd a b num).length + (i * num + k) := by
      rw [linspaceNoEnd_length]; ring
    simp only [fluffVals]
    rw [List.getD_eq_getElem?_getD, hidx,
      List.getElem?_append_right (Nat.le_add_right _ _), Nat.add_sub_cancel_left,
      ← List.getD_eq_getElem?_getD, ih]
    rfl

/-- C6: for every Line L, reverse_copy returns a new Line whose point
sequence is the reversal of L's point sequence (the embedding is purely
functional, matching that the Python method does not write to self, so L
is not modified), and reverse_copy applied twice gives back L pointwise. -/
theorem C6_reverse_copy_involutive (L : GLine) :
    (L.reverse_copy).p = L.p.reverse ∧ L.reverse_copy.reverse_copy = L := by
  refine ⟨rfl, ?_⟩
  cases L
  simp [GLine.reverse_copy]

/-- C7: the length of reverse_copy L (the sum of consecutive-point
Euclidean distances computed by Line.calc_length) equals the length of L. -/
theorem C7_calc_length_reverse_copy (L : GLine) :
    (L.reverse_copy).calc_length = L.calc_length :=
  pathLen_reverse L.p

/-- C3: the claim says segment_intersect on segments ((0,0),(1,1)) and
((0,1),(1,0)) returns (True, (0.5, 0.5)), and on the parallel segments
((0,0),(1,0)) and ((0,1),(1,1)) returns False.  The code instead groups
line1's first point with line2's first point (and line1's second with
line2's second) when assembling the linear system, so on both of these
inputs the matrix M is singular and np.linalg.solve raises
numpy.linalg.LinAlgError; neither documented value is returned. -/
theorem C3_segment_intersect_examples_raise :
    segment_intersect ⟨[⟨0, 0⟩, ⟨1, 1⟩]⟩ ⟨[⟨0, 1⟩, ⟨1, 0⟩]⟩ = SegResult.linAlgError ∧
    segment_intersect ⟨[⟨0, 0⟩, ⟨1, 0⟩]⟩ ⟨[⟨0, 1⟩, ⟨1, 1⟩]⟩ = SegResult.linAlgError := by
  constructor <;> norm_num [segment_intersect, GLine.xval, GLine.yval]

/-- C2: the claim says that when either intersection parameter lies outside
[0, 1], segment_intersect returns an explicit no-intersection value (False
with an undefined point) rather than raising or returning nothing.  In the
code the final line, the expression False, (None, None), lacks a return
keyword, so the call falls off the end of the function and yields the
implicit None: here evaluated at a concrete input with a nonsingular
system whose solution (-3/4, -1/4) lies outside [0, 1] in both
components. -/
theorem C2_segment_intersect_falls_through :
    segment_intersect ⟨[⟨0, 0⟩, ⟨0, 1⟩]⟩ ⟨[⟨1, 0⟩, ⟨3, 5⟩]⟩ = SegResult.pyNone := by
  norm_num [segment_intersect, GLine.xval, GLine.yval]

/-- C8: for every Line with n ≥ 2 points and every subdivision count
num ≥ 1, fluff(num) returns coordinate arrays of length num*(n-1)+1; the
block of samples contributed by the consecutive original pair (i, i+1)
consists of the num linear interpolants v i + k*(v (i+1) - v i)/num for
k < num (the pair's start included, its end excluded); the final original
point is appended last; and the first and last samples equal the Line's
endpoints. -/
theorem C8_fluff_resamples (L : GLine) (num : ℕ) (hL : 2 ≤ L.p.length)
    (hnum : 1 ≤ num) :
    ((L.fluff num).1.length = num * (L.p.length - 1) + 1 ∧
      (L.fluff num).2.length = num * (L.p.length - 1) + 1) ∧
    (∀ i k : ℕ, i + 1 < L.p.length → k < num →
      (L.fluff num).1.getD (i * num + k) 0 =
        L.xval.getD i 0 + (k : ℚ) * ((L.xval.getD (i + 1) 0 - L.xval.getD i 0) / (num : ℚ)) ∧
      (L.fluff num).2.getD (i * num + k) 0 =
        L.yval.getD i 0 + (k : ℚ) * ((L.yval.getD (i + 1) 0 - L.yval.getD i 0) / (num : ℚ))) ∧
    ((L.fluff num).1.head? = L.xval.head? ∧
      (L.fluff num).2.head? = L.yval.head? ∧
      (L.fluff num).1.getLast? = L.xval.getLast? ∧
      (L.fluff num).2.getLast? = L.yval.getLast?) := by
  have hxlen : L.xval.length = L.p.length := List.length_map _ _
  have hylen : L.yval.length = L.p.length := List.length_map _ _
  have hxne : L.xval ≠ [] := by
    intro h
    rw [h] at hxlen
    simp at hxlen
    omega
  have hyne : L.yval ≠ [] := by
    intro h
    rw [h] at hylen
    simp at hylen
    omega
  refine ⟨⟨?_, ?_⟩, ?_, ?_, ?_, ?_, ?_⟩
  · rw [GLine.fluff, fluffVals_length num L.xval hxne, hxlen]
  · rw [GLine.fluff, fluffVals_length num L.yval hyne, hylen]
  · intro i k hi hk
    constructor
    · exact fluffVals_getD num L.xval i k (by rw [hxlen]; exact hi) hk
    · exact fluffVals_getD num L.yval i k (by rw [hylen]; exact hi) hk
  · exact fluffVals_head num hnum L.xval
  · exact fluffVals_head num hnum L.yval
  · exact fluffVals_getLast num L.xval hxne
  · exact fluffVals_getLast num L.yval hyne

/-- Witness for C8: the hypotheses and conclusion instantiated at the
concrete two-point line ((0,0),(1,2)) with num = 2. -/
theorem C8_fluff_resamples_witness :
    2 ≤ wLine8.p.length ∧ 1 ≤ 2 ∧
    (((wLine8.fluff 2).1.length = 2 * (wLine8.p.length - 1) + 1 ∧
      (wLine8.fluff 2).2.length = 2 * (wLine8.p.length - 1) + 1) ∧
    (∀ i k : ℕ, i + 1 < wLine8.p.length → k < 2 →
      (wLine8.fluff 2).1.getD (i * 2 + k) 0 =
        wLine8.xval.getD i 0 +
          (k : ℚ) * ((wLine8.xval.getD (i + 1) 0 - wLine8.xval.getD i 0) / (2 : ℚ)) ∧
      (wLine8.fluff 2).2.getD (i * 2 + k) 0 =
        wLine8.yval.getD i 0 +
          (k : ℚ) * ((wLine8.yval.getD (i + 1) 0 - wLine8.yval.getD i 0) / (2 : ℚ))) ∧
    ((wLine8.fluff 2).1.head? = wLine8.xval.head? ∧
      (wLine8.fluff 2).2.head? = wLine8.yval.head? ∧
      (wLine8.fluff 2).1.getLast? = wLine8.xval.getLast? ∧
      (wLine8.fluff 2).2.getLast? = wLine8.yval.getLast?)) :=
  ⟨by norm_num [wLine8], by norm_num,
    C8_fluff_resamples wLine8 2 (by norm_num [wLine8]) (by norm_num)⟩

/-- C4: the claim says that on a SOL/core poloidal count mismatch
GetNpoints raises when Enforce is set, and otherwise warns, clamps both
counts to their minimum and returns the resolved (radial, poloidal) pair
without failing.  The Enforce branch does raise the ValueError, but the
lenient branch never returns: the final statement
return (nr_cells, np_cells) reads nr_cells, which is assigned nowhere in
the function and is no module global, so the call raises NameError after
the warning and the clamp. -/
theorem C4_GetNpoints_never_returns :
    GetNpoints wSettings4 wPlain4 true =
      Except.error
        (PyErr.valueError "SOL and CORE must have equal POLOIDAL np values") ∧
    GetNpoints wSettings4 wPlain4 false =
      Except.error (PyErr.nameError "nr_cells") := by
  constructor <;> rfl

/-- C5: for every patch whose tag designates an X-point corner in
AdjustPatch's dispatch table, the snap replaces exactly the designated
corner field(s) with the corresponding X-point coordinate (the record
update leaves all other corners and the tag unchanged); any tag outside
the table leaves the patch untouched; and snapping entry i of a list of
patches leaves every other entry of the list unchanged. -/
theorem C5_AdjustPatch_only_designated_corner (xpt1 xpt2 : ℚ × ℚ)
    (p : CornerPatch) :
    (p.tag = "A2" → AdjustPatch xpt1 xpt2 p = { p with cornerSE := xpt1 }) ∧
    (p.tag = "A1" → AdjustPatch xpt1 xpt2 p = { p with cornerNE := xpt1 }) ∧
    (p.tag = "B2" → AdjustPatch xpt1 xpt2 p = { p with cornerSW := xpt1 }) ∧
    (p.tag = "B1" → AdjustPatch xpt1 xpt2 p = { p with cornerNW := xpt1 }) ∧
    (p.tag = "E2" → AdjustPatch xpt1 xpt2 p = { p with cornerSE := xpt1 }) ∧
    (p.tag = "E1" → AdjustPatch xpt1 xpt2 p = { p with cornerNE := xpt1 }) ∧
    (p.tag = "F3" → AdjustPatch xpt1 xpt2 p = { p with cornerSE := xpt2 }) ∧
    (p.tag = "F2" →
      AdjustPatch xpt1 xpt2 p = { p with cornerSW := xpt1, cornerNE := xpt2 }) ∧
    (p.tag = "F1" → AdjustPatch xpt1 xpt2 p = { p with cornerNW := xpt1 }) ∧
    (p.tag = "G3" → AdjustPatch xpt1 xpt2 p = { p with cornerSW := xpt2 }) ∧
    (p.tag = "G2" → AdjustPatch xpt1 xpt2 p = { p with cornerNW := xpt2 }) ∧
    (p.tag = "H3" → AdjustPatch xpt1 xpt2 p = { p with cornerSE := xpt2 }) ∧
    (p.tag = "H2" → AdjustPatch xpt1 xpt2 p = { p with cornerNE := xpt2 }) ∧
    (p.tag ∉ (["A2", "A1", "B2", "B1", "E2", "E1", "F3", "F2", "F1", "G3",
        "G2", "H3", "H2"] : List String) → AdjustPatch xpt1 xpt2 p = p) ∧
    (∀ (ps : List CornerPatch) (i j : ℕ), i ≠ j →
      (ps.set i (AdjustPatch xpt1 xpt2 (ps.getD i p)))[j]? = ps[j]?) := by
  refine ⟨?_, ?_, ?_, ?_, ?_, ?_, ?_, ?_, ?_, ?_, ?_, ?_, ?_, ?_, ?_⟩
  case _ => intro h; simp [AdjustPatch, adjust_corner, h]
  case _ => intro h; simp [AdjustPatch, adjust_corner, h]
  case _ => intro h; simp [AdjustPatch, adjust_corner, h]
  case _ => intro h; simp [AdjustPatch, adjust_corner, h]
  case _ => intro h; simp [AdjustPatch, adjust_corner, h]
  case _ => intro h; simp [AdjustPatch, adjust_corner, h]
  case _ => intro h; simp [AdjustPatch, adjust_corner, h]
  case _ => intro h; simp [AdjustPatch, adjust_corner, h]
  case _ => intro h; simp [AdjustPatch, adjust_corner, h]
  case _ => intro h; simp [AdjustPatch, adjust_corner, h]
  case _ => intro h; simp [AdjustPatch, adjust_corner, h]
  case _ => intro h; simp [AdjustPatch, adjust_corner, h]
  case _ => intro h; simp [AdjustPatch, adjust_corner, h]
  case _ =>
    intro h
    simp only [List.mem_cons, List.not_mem_nil, or_false, not_or] at h
    obtain ⟨h1, h2, h3, h4, h5, h6, h7, h8, h9, h10, h11, h12, h13⟩ := h
    simp [AdjustPatch, h1, h2, h3, h4, h5, h6, h7, h8, h9, h10, h11, h12, h13]
  case _ =>
    intro ps i j hij
    exact List.getElem?_set_ne hij

/-- Witness for C5: snapping the F2 patch with xpt1 = (10, 20) and
xpt2 = (30, 40) replaces exactly its SW and NE corners. -/
theorem C5_AdjustPatch_witness :
    wPatchF2.tag = "F2" ∧
    AdjustPatch (10, 20) (30, 40) wPatchF2 =
      { wPatchF2 with cornerSW := (10, 20), cornerNE := (30, 40) } :=
  ⟨rfl,
    (C5_AdjustPatch_only_designated_corner (10, 20) (30, 40)
      wPatchF2).2.2.2.2.2.2.2.1 rfl⟩

/-- C10: for every adjacent-patch lookup (PatchName, Boundary), the value
GetBoundaryPoints returns for Boundary = E equals the one it returns for
Boundary = W: both are the W_vertices list of the first patch whose name
matches (so an East query never reads the East vertex list). -/
theorem C10_GetBoundaryPoints_east_is_west (ps : List (String × VertexPatch))
    (pn : String) :
    GetBoundaryPoints ps (some (pn, "E")) =
      (ps.find? fun q => q.1 == pn).map (fun q => q.2.W_vertices) ∧
    GetBoundaryPoints ps (some (pn, "W")) =
      (ps.find? fun q => q.1 == pn).map (fun q => q.2.W_vertices) := by
  induction ps with
  | nil => exact ⟨rfl, rfl⟩
  | cons hd tl ih =>
    obtain ⟨name, patch⟩ := hd
    by_cases h : name = pn
    · subst h
      constructor <;> simp [GetBoundaryPoints, List.find?]
    · have hb : (name == pn) = false := by
        simpa using h
      constructor <;>
        simp [GetBoundaryPoints, List.find?, h, hb, ih.1, ih.2]

theorem except_bind_ok {ε α β : Type} (a : α) (f : α → Except ε β) :
    (Except.ok a >>= f) = f a := rfl

theorem except_bind_error {ε α β : Type} (e : ε) (f : α → Except ε β) :
    ((Except.error e : Except ε α) >>= f) = Except.error e := rfl

theorem sumNpol_map_some (l : List SFPatch) :
    sumNpol (l.map some) = Except.ok ((l.map fun p => p.npol - 1).sum) := by
  induction l with
  | nil => rfl
  | cons p rest ih => simp [sumNpol, ih, except_bind_ok]

theorem sumNradCol_map (j : ℕ) :
    ∀ (rows : List (List (Option SFPatch))) (qs : List SFPatch),
      rows.map (fun r => r[j]?) = qs.map (fun p => some (some p)) →
      sumNradCol j rows = Except.ok ((qs.map fun p => p.nrad - 1).sum)
  | [], [], _ => rfl
  | [], _ :: _, h => by simp at h
  | _ :: _, [], h => by simp at h
  | r :: rest, q :: qs, h => by
    simp only [List.map_cons, List.cons.injEq] at h
    have ih := sumNradCol_map j rest qs h.2
    simp [sumNradCol, h.1, ih, except_bind_ok]

theorem np_total1_eq (pm : PatchMatrix) (ps : List SFPatch)
    (h : ((pm.getD 1 []).drop 1).take 4 = ps.map some) :
    np_total1 pm = Except.ok ((ps.map fun p => p.npol - 1).sum + 2) := by
  rw [np_total1, h, sumNpol_map_some]
  rfl

theorem np_total2_eq (pm : PatchMatrix) (ps : List SFPatch)
    (h : ((pm.getD 1 []).drop 7).take 4 = ps.map some) :
    np_total2 pm = Except.ok ((ps.map fun p => p.npol - 1).sum + 2) := by
  rw [np_total2, h, sumNpol_map_some]
  rfl

theorem nr_total1_eq (pm : PatchMatrix) (qs : List SFPatch)
    (h : ((pm.drop 1).take 3).map (fun r => r[1]?) =
      qs.map (fun p => some (some p))) :
    nr_total1 pm = Except.ok ((qs.map fun p => p.nrad - 1).sum + 2) := by
  rw [nr_total1, sumNradCol_map 1 _ qs h]
  rfl

theorem nr_total2_eq (pm : PatchMatrix) (qs : List SFPatch)
    (h : ((pm.drop 1).take 3).map (fun r => r[7]?) =
      qs.map (fun p => some (some p))) :
    nr_total2 pm = Except.ok ((qs.map fun p => p.nrad - 1).sum + 2) := by
  rw [nr_total2, sumNradCol_map 7 _ qs h]
  rfl

theorem zeros3_dims (a b : ℕ) :
    (zeros3 a b).length = a ∧
      ∀ row ∈ zeros3 a b, row.length = b ∧ ∀ e ∈ row, e.length = 5 := by
  refine ⟨List.length_replicate _ _, fun row hrow => ?_⟩
  obtain rfl := List.eq_of_mem_replicate hrow
  refine ⟨List.length_replicate _ _, fun e he => ?_⟩
  obtain rfl := List.eq_of_mem_replicate he
  exact List.length_replicate _ _

/-- C1: for each disconnected region, concat_grid sizes its output
coordinate arrays from the patch row and patch column of that region: the
poloidal dimension np_total is the sum over row 1, columns 1-4 (region 1)
resp. columns 7-10 (region 2), of the per-patch poloidal count npol minus
one, plus 2 for closure; the radial dimension nr_total is the sum over
column 1 resp. 7 of rows 1-3 of nrad minus one, plus 2; and the arrays
allocated as np.zeros((np_total, nr_total, 5)) have exactly those
dimensions. -/
theorem C1_concat_grid_alloc_dims (pm : PatchMatrix)
    (ps1 ps2 qs1 qs2 : List SFPatch)
    (h1 : ((pm.getD 1 []).drop 1).take 4 = ps1.map some)
    (h2 : ((pm.getD 1 []).drop 7).take 4 = ps2.map some)
    (h3 : ((pm.drop 1).take 3).map (fun r => r[1]?) =
      qs1.map (fun p => some (some p)))
    (h4 : ((pm.drop 1).take 3).map (fun r => r[7]?) =
      qs2.map (fun p => some (some p))) :
    np_total1 pm = Except.ok ((ps1.map fun p => p.npol - 1).sum + 2) ∧
    nr_total1 pm = Except.ok ((qs1.map fun p => p.nrad - 1).sum + 2) ∧
    np_total2 pm = Except.ok ((ps2.map fun p => p.npol - 1).sum + 2) ∧
    nr_total2 pm = Except.ok ((qs2.map fun p => p.nrad - 1).sum + 2) ∧
    (∀ a b : ℕ, (zeros3 a b).length = a ∧
      ∀ row ∈ zeros3 a b, row.length = b ∧ ∀ e ∈ row, e.length = 5) :=
  ⟨np_total1_eq pm ps1 h1, nr_total1_eq pm qs1 h3, np_total2_eq pm ps2 h2,
    nr_total2_eq pm qs2 h4, zeros3_dims⟩

/-- Witness for C1 at the concrete witness matrix, whose patches all have
2 × 2 cell grids (npol = nrad = 3): both regions get poloidal dimension
4 * 2 + 2 and radial dimension 3 * 2 + 2. -/
theorem C1_concat_grid_alloc_dims_witness :
    ((wPM.getD 1 []).drop 1).take 4 = wPs4.map some ∧
    ((wPM.drop 1).take 3).map (fun r => r[1]?) =
      wQs3.map (fun p => some (some p)) ∧
    np_total1 wPM = Except.ok ((wPs4.map fun p => p.npol - 1).sum + 2) ∧
    nr_total1 wPM = Except.ok ((wQs3.map fun p => p.nrad - 1).sum + 2) ∧
    np_total2 wPM = Except.ok ((wPs4.map fun p => p.npol - 1).sum + 2) ∧
    nr_total2 wPM = Except.ok ((wQs3.map fun p => p.nrad - 1).sum + 2) := by
  have h := C1_concat_grid_alloc_dims wPM wPs4 wPs4 wQs3 wQs3 rfl rfl rfl rfl
  exact ⟨rfl, rfl, h.1, h.2.1, h.2.2.1, h.2.2.2.1⟩

theorem attrPass_ok (patches : List SFPatch)
    (h : ∀ p ∈ patches, p.cell_grid ≠ []) : attrPass patches = Except.ok () := by
  induction patches with
  | nil => rfl
  | cons p rest ih =>
    have hp := h p (List.mem_cons_self _ _)
    simp only [attrPass, if_neg hp]
    exact ih fun q hq => h q (List.mem_cons_of_mem _ hq)

theorem coorFold_error (cell : SFCell) (i j : ℕ) (st : GridArrays) :
    coorList.foldlM (coorWrite cell i j) st =
      Except.error (PyErr.nameError "Verbose") := rfl

theorem cellBody_error (pm : PatchMatrix) (colStart ixp : ℕ) (patch : SFPatch)
    (nr_sum : ℕ) (st : GridArrays) (ixl jyl : ℕ) (s : ℕ)
    (hs : sumNpol (((pm.getD 1 []).drop colStart).take (ixp + 1 - colStart)) =
      Except.ok s) :
    cellBody pm colStart ixp patch nr_sum st ixl jyl =
      Except.error (PyErr.nameError "Verbose") := by
  rw [cellBody, hs]
  rfl

theorem cellLoop_ok (pm : PatchMatrix) (colStart ixp : ℕ) (patch : SFPatch)
    (nr_sum : ℕ) (st : GridArrays)
    (h : (patch.cell_grid.headD []).length = 0) :
    cellLoop pm colStart ixp patch nr_sum st = Except.ok st := by
  rw [cellLoop, h]
  rfl

theorem cellLoop_error (pm : PatchMatrix) (colStart ixp : ℕ) (patch : SFPatch)
    (nr_sum : ℕ) (st : GridArrays) (s : ℕ)
    (hs : sumNpol (((pm.getD 1 []).drop colStart).take (ixp + 1 - colStart)) =
      Except.ok s)
    (h : (patch.cell_grid.headD []).length ≠ 0) :
    cellLoop pm colStart ixp patch nr_sum st =
      Except.error (PyErr.nameError "Verbose") := by
  obtain ⟨n, hn⟩ : ∃ n, (patch.cell_grid.headD []).length = n + 1 :=
    ⟨(patch.cell_grid.headD []).length - 1,
      (Nat.succ_pred_eq_of_pos (Nat.pos_of_ne_zero h)).symm⟩
  have hg : patch.cell_grid ≠ [] := by
    intro he
    rw [he] at hn
    simp at hn
  obtain ⟨m, hm⟩ : ∃ m, patch.cell_grid.length = m + 1 :=
    ⟨patch.cell_grid.length - 1,
      (Nat.succ_pred_eq_of_pos (List.length_pos.mpr hg)).symm⟩
  rw [cellLoop, hn, hm, List.range_succ_eq_map, List.range_succ_eq_map]
  simp only [List.foldlM_cons]
  rw [cellBody_error pm colStart ixp patch nr_sum st 0 0 s hs]
  rfl

theorem rowStep_none (pm : PatchMatrix) (colStart ixp : ℕ)
    (acc : GridArrays × ℕ) (jyp : ℕ)
    (h : (pm.getD jyp []).getD ixp none = none) :
    rowStep pm colStart ixp acc jyp = Except.ok acc := by
  rw [rowStep, h]

theorem rowStep_some (pm : PatchMatrix) (colStart ixp : ℕ)
    (acc : GridArrays × ℕ) (jyp : ℕ) (patch : SFPatch)
    (h : (pm.getD jyp []).getD ixp none = some patch) :
    rowStep pm colStart ixp acc jyp =
      (cellLoop pm colStart ixp patch (acc.2 + (patch.nrad - 1)) acc.1 >>=
        fun st => Except.ok (st, acc.2 + (patch.nrad - 1))) := by
  rw [rowStep, h]

theorem rowFold_spec (pm : PatchMatrix) (colStart ixp : ℕ) (s : ℕ)
    (hs : sumNpol (((pm.getD 1 []).drop colStart).take (ixp + 1 - colStart)) =
      Except.ok s) :
    ∀ (rows : List ℕ) (st : GridArrays) (nr : ℕ),
      (rows.any (fun jyp => entryHasCell pm ixp jyp) = true →
        rows.foldlM (rowStep pm colStart ixp) (st, nr) =
          Except.error (PyErr.nameError "Verbose")) ∧
      (rows.any (fun jyp => entryHasCell pm ixp jyp) = false →
        ∃ n, rows.foldlM (rowStep pm colStart ixp) (st, nr) = Except.ok (st, n))
  | [], st, nr => by
    constructor
    · intro h
      simp at h
    · intro _
      exact ⟨nr, rfl⟩
  | jyp :: rows, st, nr => by
    rw [List.foldlM_cons]
    cases hentry : (pm.getD jyp []).getD ixp none with
    | none =>
      rw [rowStep_none pm colStart ixp (st, nr) jyp hentry, except_bind_ok]
      constructor
      · intro h
        simp only [List.any_cons, entryHasCell, hentry, Bool.false_or] at h
        exact (rowFold_spec pm colStart ixp s hs rows st nr).1 h
      · intro h
        simp only [List.any_cons, entryHasCell, hentry, Bool.false_or] at h
        exact (rowFold_spec pm colStart ixp s hs rows st nr).2 h
    | some patch =>
      rw [rowStep_some pm colStart ixp (st, nr) jyp patch hentry]
      by_cases hc : (patch.cell_grid.headD []).length = 0
      · rw [cellLoop_ok pm colStart ixp patch _ st hc]
        simp only [except_bind_ok]
        constructor
        · intro h
          simp only [List.any_cons, entryHasCell, hentry, hc] at h
          simp only [ne_eq, not_true_eq_false, decide_False, Bool.false_or] at h
          exact (rowFold_spec pm colStart ixp s hs rows st
            (nr + (patch.nrad - 1))).1 h
        · intro h
          simp only [List.any_cons, entryHasCell, hentry, hc] at h
          simp only [ne_eq, not_true_eq_false, decide_False, Bool.false_or] at h
          exact (rowFold_spec pm colStart ixp s hs rows st
            (nr + (patch.nrad - 1))).2 h
      · rw [cellLoop_error pm colStart ixp patch _ st s hs hc]
        simp only [except_bind_error]
        constructor
        · intro _
          trivial
        · intro h
          simp only [List.any_cons, entryHasCell, hentry] at h
          simp only [ne_eq, hc, not_false_eq_true, decide_True, Bool.true_or] at h
          exact absurd h (by decide)

theorem regionScan_spec (pm : PatchMatrix) (colStart : ℕ) :
    ∀ cols : List ℕ,
      (∀ ixp ∈ cols, ∃ s,
        sumNpol (((pm.getD 1 []).drop colStart).take (ixp + 1 - colStart)) =
          Except.ok s) →
      ∀ st : GridArrays,
        (cols.any (colHasCell pm) = true →
          regionScan pm colStart cols st =
            Except.error (PyErr.nameError "Verbose")) ∧
        (cols.any (colHasCell pm) = false →
          regionScan pm colStart cols st = Except.ok st)
  | [], _, st => by
    constructor
    · intro h
      simp at h
    · intro _
      rfl
  | ixp :: cols, hsum, st => by
    have ih := regionScan_spec pm colStart cols
      (fun i hi => hsum i (List.mem_cons_of_mem _ hi))
    obtain ⟨s, hs⟩ := hsum ixp (List.mem_cons_self _ _)
    have hrow := rowFold_spec pm colStart ixp s hs [1, 2, 3] st 0
    cases hcol : colHasCell pm ixp with
    | true =>
      have herr := hrow.1 (by rw [colHasCell] at hcol; exact hcol)
      constructor
      · intro _
        rw [regionScan, List.foldlM_cons, colStep, rowLoop, herr]
        rfl
      · intro hf
        rw [List.any_cons, hcol] at hf
        simp at hf
    | false =>
      obtain ⟨n, hok⟩ := hrow.2 (by rw [colHasCell] at hcol; exact hcol)
      have hred : regionScan pm colStart (ixp :: cols) st =
          regionScan pm colStart cols st := by
        rw [regionScan, List.foldlM_cons, colStep, rowLoop, hok, regionScan]
        rfl
      constructor
      · intro h
        rw [List.any_cons, hcol, Bool.false_or] at h
        rw [hred]
        exact (ih st).1 h
      · intro h
        rw [List.any_cons, hcol, Bool.false_or] at h
        rw [hred]
        exact (ih st).2 h

theorem sliceSum_ok (pm : PatchMatrix) (colStart : ℕ) (ps : List SFPatch)
    (h : ((pm.getD 1 []).drop colStart).take 4 = ps.map some)
    (ixp : ℕ) (hle : ixp + 1 - colStart ≤ 4) :
    ∃ s, sumNpol (((pm.getD 1 []).drop colStart).take (ixp + 1 - colStart)) =
      Except.ok s := by
  have h2 := congrArg (List.take (ixp + 1 - colStart)) h
  rw [List.take_take, Nat.min_eq_left hle, ← List.map_take] at h2
  rw [h2]
  exact ⟨_, sumNpol_map_some _⟩

/-- C9: concat_grid evaluates the unbound name Verbose inside its per-cell
write loop, so on every patch set holding at least one cell the call
raises NameError while writing the first cell it reaches, and the
computation never produces final rm/zm arrays: the index flip, guard-cell
and concatenation steps downstream of the scan are skipped because the
exception propagates out of the whole call. -/
theorem C9_concat_grid_raises_NameError (patches : List SFPatch)
    (pm : PatchMatrix) (ps1 ps2 qs1 qs2 : List SFPatch)
    (hpatches : ∀ p ∈ patches, p.cell_grid ≠ [])
    (h1 : ((pm.getD 1 []).drop 1).take 4 = ps1.map some)
    (h2 : ((pm.getD 1 []).drop 7).take 4 = ps2.map some)
    (h3 : ((pm.drop 1).take 3).map (fun r => r[1]?) =
      qs1.map (fun p => some (some p)))
    (h4 : ((pm.drop 1).take 3).map (fun r => r[7]?) =
      qs2.map (fun p => some (some p)))
    (hcell : ([1, 2, 3, 4].any (colHasCell pm) ||
      [7, 8, 9, 10].any (colHasCell pm)) = true) :
    concat_grid patches pm = Except.error (PyErr.nameError "Verbose") := by
  have hsum1 : ∀ ixp ∈ ([1, 2, 3, 4] : List ℕ), ∃ s,
      sumNpol (((pm.getD 1 []).drop 1).take (ixp + 1 - 1)) = Except.ok s := by
    intro ixp hixp
    refine sliceSum_ok pm 1 ps1 h1 ixp ?_
    fin_cases hixp <;> norm_num
  have hsum2 : ∀ ixp ∈ ([7, 8, 9, 10] : List ℕ), ∃ s,
      sumNpol (((pm.getD 1 []).drop 7).take (ixp + 1 - 7)) = Except.ok s := by
    intro ixp hixp
    refine sliceSum_ok pm 7 ps2 h2 ixp ?_
    fin_cases hixp <;> norm_num
  have hr1 := regionScan_spec pm 1 [1, 2, 3, 4] hsum1
  have hr2 := regionScan_spec pm 7 [7, 8, 9, 10] hsum2
  rw [concat_grid, attrPass_ok patches hpatches, except_bind_ok,
    np_total1_eq pm ps1 h1, except_bind_ok, nr_total1_eq pm qs1 h3,
    except_bind_ok, np_total2_eq pm ps2 h2, except_bind_ok,
    nr_total2_eq pm qs2 h4, except_bind_ok]
  cases hc1 : [1, 2, 3, 4].any (colHasCell pm) with
  | true =>
    rw [(hr1 _).1 hc1, except_bind_error]
  | false =>
    have hc2 : [7, 8, 9, 10].any (colHasCell pm) = true := by
      rw [hc1, Bool.false_or] at hcell
      exact hcell
    rw [(hr1 _).2 hc1, except_bind_ok, (hr2 _).1 hc2, except_bind_error]

/-- Witness for C9: on the concrete witness matrix, whose patches hold
2 × 2 cell grids, concat_grid raises the NameError. -/
theorem C9_concat_grid_raises_NameError_witness :
    (∀ p ∈ ([wPatch32] : List SFPatch), p.cell_grid ≠ []) ∧
    ([1, 2, 3, 4].any (colHasCell wPM) ||
      [7, 8, 9, 10].any (colHasCell wPM)) = true ∧
    concat_grid [wPatch32] wPM = Except.error (PyErr.nameError "Verbose") := by
  have hp : ∀ p ∈ ([wPatch32] : List SFPatch), p.cell_grid ≠ [] := by
    intro p hp
    simp only [List.mem_singleton] at hp
    subst hp
    simp [wPatch32]
  refine ⟨hp, rfl, ?_⟩
  exact C9_concat_grid_raises_NameError [wPatch32] wPM wPs4 wPs4 wQs3 wQs3
    hp rfl rfl rfl rfl rfl

end Ingrid
